import Mathlib

/-!
Verification of the ETL error-handling and scheduling core of the
HospotalManagement repository, shallowly embedded from
`app/core/etl_error_handling.py` and `app/core/scheduler.py`.

Conventions of the embedding:
* Python floats (`base_delay`, `max_delay`, `exponential_base`, jitter
  factors) are modelled as rationals `ℚ`.
* Wall-clock timestamps (ISO strings, which compare lexicographically in
  chronological order) are modelled as naturals `ℕ` ordered by `≤`.
* A Python function that may raise is modelled as returning
  `Except String α`, the `String` being the exception's message text.
* The asynchronous work function handed to `handle_error_with_retry` is
  modelled as a map from the (1-based) invocation index to its outcome,
  so that "fails twice then succeeds" is expressible.
* The retry loop is given explicit fuel; theorems hold for every
  sufficiently large fuel, and the loop provably finishes within the
  fuel used in every statement below.
-/

set_option maxHeartbeats 1000000

/-- `ETLErrorType` enumeration (`etl_error_handling.py`, lines 16-26). -/
inductive ETLErrorType where
  | database_connection
  | data_validation
  | azure_service
  | pipeline_execution
  | data_export
  | network_timeout
  | authentication
  | resource_limit
  | unknown
deriving DecidableEq

/-- `ETLErrorSeverity` enumeration (`etl_error_handling.py`, lines 29-34). -/
inductive ETLErrorSeverity where
  | low
  | medium
  | high
  | critical
deriving DecidableEq

/-- `RetryConfig` (`etl_error_handling.py`, lines 68-83). Delay fields are
rationals standing for the source's floats. -/
structure RetryConfig where
  max_attempts : ℕ
  base_delay : ℚ
  max_delay : ℚ
  exponential_base : ℚ
  jitter : Bool
deriving DecidableEq

/-- One entry of `ETLErrorHandler.error_history`: the dictionary built in
`log_error` from `ETLError.to_dict()` plus context.  We keep the fields the
claims depend on: the message, classification, severity, the attempt number
recorded in `details`, and the error's creation timestamp (the `"timestamp"`
key compared by `get_error_history`'s `since` filter). -/
structure ErrorRecord where
  message : String
  error_type : ETLErrorType
  severity : ETLErrorSeverity
  attempt : ℕ
  timestamp : ℕ
deriving DecidableEq

/-- State of an `ETLErrorHandler` instance (`etl_error_handling.py`,
lines 86-104).  The `retry_configs` dict of `__init__` maps every
`ETLErrorType` constructor, so it is modelled as a total function (the
`.get(..., configs[UNKNOWN])` fallback in the source can then never fire). -/
structure ETLErrorHandler where
  error_history : List ErrorRecord
  max_history_size : ℕ
  retry_configs : ETLErrorType → RetryConfig

/-- The default per-category retry policies installed by
`ETLErrorHandler.__init__` (`etl_error_handling.py`, lines 94-104). -/
def defaultRetryConfigs : ETLErrorType → RetryConfig
  | .database_connection => ⟨5, 2, 60, 2, true⟩
  | .azure_service => ⟨4, 5, 60, 2, true⟩
  | .network_timeout => ⟨3, 1, 60, 2, true⟩
  | .pipeline_execution => ⟨2, 10, 60, 2, true⟩
  | .data_export => ⟨3, 3, 60, 2, true⟩
  | .authentication => ⟨2, 5, 60, 2, true⟩
  | .resource_limit => ⟨1, 30, 60, 2, true⟩
  | .data_validation => ⟨1, 1, 60, 2, true⟩
  | .unknown => ⟨2, 5, 60, 2, true⟩

/-- A freshly constructed `ETLErrorHandler()`: empty history, capacity 1000,
default policies (`etl_error_handling.py`, lines 89-104). -/
def ETLErrorHandler.init : ETLErrorHandler :=
  ⟨[], 1000, defaultRetryConfigs⟩

/-- Lower-cased character list of a message, modelling Python's
`str(error).lower()`. -/
def lowerChars (s : String) : List Char :=
  s.toList.map Char.toLower

/-- `needle` occurs as a contiguous substring of `hay`, modelling Python's
`needle in hay` on strings. -/
def substrB (needle hay : List Char) : Bool :=
  hay.tails.any (fun t => needle.isPrefixOf t)

/-- Python's `kw in str(error).lower()` for a lower-case keyword literal. -/
def containsKw (msg : String) (kw : String) : Bool :=
  substrB kw.toList (lowerChars msg)

/-- `ETLErrorHandler.classify_error` (`etl_error_handling.py`, lines
106-127): case-insensitive substring checks in a fixed order, first match
wins. -/
def classify_error (msg : String) : ETLErrorType :=
  if containsKw msg "connection" || containsKw msg "database" then
    .database_connection
  else if containsKw msg "azure" || containsKw msg "blob" || containsKw msg "synapse" then
    .azure_service
  else if containsKw msg "timeout" || containsKw msg "timed out" then
    .network_timeout
  else if containsKw msg "pipeline" || containsKw msg "data factory" then
    .pipeline_execution
  else if containsKw msg "export" || containsKw msg "upload" then
    .data_export
  else if containsKw msg "auth" || containsKw msg "credential" || containsKw msg "permission" then
    .authentication
  else if containsKw msg "limit" || containsKw msg "quota" || containsKw msg "throttle" then
    .resource_limit
  else if containsKw msg "validation" || containsKw msg "invalid" then
    .data_validation
  else
    .unknown

/-- `ETLErrorHandler.determine_severity` (`etl_error_handling.py`, lines
129-143).  The source's second parameter (the exception) is unused there,
so it is dropped here; the `severity_map.get(..., MEDIUM)` default can
never fire because the map is total. -/
def determine_severity : ETLErrorType → ETLErrorSeverity
  | .database_connection => .high
  | .azure_service => .high
  | .pipeline_execution => .high
  | .authentication => .critical
  | .resource_limit => .medium
  | .network_timeout => .medium
  | .data_export => .medium
  | .data_validation => .low
  | .unknown => .medium

/-- The pre-jitter part of `ETLErrorHandler.calculate_delay`
(`etl_error_handling.py`, lines 147-148). -/
def pre_jitter_delay (attempt : ℕ) (config : RetryConfig) : ℚ :=
  min (config.base_delay * config.exponential_base ^ (attempt - 1)) config.max_delay

/-- `ETLErrorHandler.calculate_delay` (`etl_error_handling.py`, lines
145-154).  The random jitter multiplier `0.5 + random.random() * 0.5`,
which ranges over `[0.5, 1.0)`, is passed in as the explicit parameter
`jitterFactor`. -/
def calculate_delay (attempt : ℕ) (config : RetryConfig) (jitterFactor : ℚ) : ℚ :=
  let delay := pre_jitter_delay attempt config
  if config.jitter then delay * jitterFactor else delay

/-- `ETLErrorHandler.should_retry` (`etl_error_handling.py`, lines
156-159): looks the category up in the handler's own `retry_configs`
and retries while `attempt < config.max_attempts`. -/
def should_retry (h : ETLErrorHandler) (error_type : ETLErrorType) (attempt : ℕ) : Bool :=
  decide (attempt < (h.retry_configs error_type).max_attempts)

/-- Python's `lst[-n:]` for `n : ℕ` (for `n = 0`, `lst[-0:]` is the whole
list, matching `List.drop` of `0` only when the length bound is kept in
mind; we make the `n = 0` case explicit). -/
def pyTakeLast (n : ℕ) (l : List α) : List α :=
  if n = 0 then l else l.drop (l.length - n)

/-- `ETLErrorHandler.log_error` restricted to its state effect
(`etl_error_handling.py`, lines 161-185): append the record, then trim to
the most recent `max_history_size` entries when the history exceeds that
size. -/
def log_error (h : ETLErrorHandler) (e : ErrorRecord) : ETLErrorHandler :=
  let hist := h.error_history ++ [e]
  if h.max_history_size < hist.length then
    { h with error_history := pyTakeLast h.max_history_size hist }
  else
    { h with error_history := hist }

/-- `ETLErrorHandler.get_error_history` (`etl_error_handling.py`, lines
241-264): sequential optional filters by error type, severity and
timestamp, then `if limit: filtered = filtered[-limit:]` — note that a
provided `limit` of `0` is falsy in Python, so no slicing happens. -/
def get_error_history (h : ETLErrorHandler) (limit : Option ℕ)
    (error_type : Option ETLErrorType) (severity : Option ETLErrorSeverity)
    (since : Option ℕ) : List ErrorRecord :=
  let fl := h.error_history
  let fl := match error_type with
    | none => fl
    | some t => fl.filter (fun e => e.error_type == t)
  let fl := match severity with
    | none => fl
    | some s => fl.filter (fun e => e.severity == s)
  let fl := match since with
    | none => fl
    | some s => fl.filter (fun e => decide (s ≤ e.timestamp))
  match limit with
  | none => fl
  | some n => if n = 0 then fl else pyTakeLast n fl

/-- Error statistics (`ETLErrorHandler.get_error_statistics`,
`etl_error_handling.py`, lines 266-303).  The per-key count dictionaries
are modelled as total counting functions (a key absent from the Python
dict corresponds to count `0`). -/
structure ErrorStatistics where
  total_errors : ℕ
  by_type : ETLErrorType → ℕ
  by_severity : ETLErrorSeverity → ℕ
  recent_critical : List ErrorRecord

/-- `ETLErrorHandler.get_error_statistics` (`etl_error_handling.py`,
lines 266-303), dropping the wall-clock `period_*` fields. -/
def get_error_statistics (h : ETLErrorHandler) (since : Option ℕ) : ErrorStatistics :=
  let errors := get_error_history h none none none since
  { total_errors := errors.length
    by_type := fun t => (errors.filter (fun e => e.error_type == t)).length
    by_severity := fun s => (errors.filter (fun e => e.severity == s)).length
    recent_critical := (pyTakeLast 10 errors).filter (fun e => e.severity == .critical) }

/-- The retry loop of `ETLErrorHandler.handle_error_with_retry`
(`etl_error_handling.py`, lines 187-239), with explicit fuel.  The work
function `f` maps the 1-based invocation index to its outcome.  On an
exception the error is classified, a record is appended via `log_error`,
and — exactly as in the source — retry eligibility is decided by
`should_retry` against the handler's own per-category `retry_configs`;
the `custom_retry_config` parameter is consulted only for the retry
delay and log text (lines 224-235) and therefore does not influence the
state or result modelled here.  The error's creation timestamp (wall
clock in the source) is modelled by the attempt counter.  Returns
(`none` on fuel exhaustion, otherwise the returned value or raised
error; the handler state; the number of invocations of `f`). -/
def handleLoop (custom_retry_config : Option RetryConfig) (f : ℕ → Except String α) :
    ℕ → ETLErrorHandler → ℕ → Option (Except ErrorRecord α) × ETLErrorHandler × ℕ
  | 0, h, _ => (none, h, 0)
  | fuel + 1, h, attempt =>
    match f attempt with
    | .ok v => (some (.ok v), h, 1)
    | .error msg =>
      let etype := classify_error msg
      let sev := determine_severity etype
      let e : ErrorRecord := ⟨msg, etype, sev, attempt, attempt⟩
      let h1 := log_error h e
      if should_retry h1 etype attempt then
        let r := handleLoop custom_retry_config f fuel h1 (attempt + 1)
        (r.1, r.2.1, r.2.2 + 1)
      else
        (some (.error e), h1, 1)

/-- `ETLErrorHandler.handle_error_with_retry` (`etl_error_handling.py`,
lines 187-239): the loop started at `attempt = 1`. -/
def handle_error_with_retry (h : ETLErrorHandler)
    (custom_retry_config : Option RetryConfig) (f : ℕ → Except String α)
    (fuel : ℕ) : Option (Except ErrorRecord α) × ETLErrorHandler × ℕ :=
  handleLoop custom_retry_config f fuel h 1

/-- A call to a function wrapped by the `with_etl_error_handling`
decorator (`etl_error_handling.py`, lines 306-322): the wrapper
constructs a fresh `ETLErrorHandler()` and runs
`handle_error_with_retry` on it; the module-level handler
`etl_error_handler` (line 326), passed here as `globalHandler`, is not
touched, so it is returned unchanged alongside the call's outcome. -/
def with_etl_error_handling_call (globalHandler : ETLErrorHandler)
    (retry_config : Option RetryConfig) (f : ℕ → Except String α) (fuel : ℕ) :
    (Option (Except ErrorRecord α) × ETLErrorHandler × ℕ) × ETLErrorHandler :=
  (handle_error_with_retry ETLErrorHandler.init retry_config f fuel, globalHandler)

/-- One entry of `ETLScheduler.job_history` (a Job Run Record): the
dictionary built in the job runners and `trigger_manual_etl`
(`scheduler.py`).  We keep the claim-relevant fields. -/
structure JobRecord where
  job_id : String
  job_type : String
  job_name : Option String
  status : String
  error : Option String
  timestamp : ℕ
deriving DecidableEq

/-- State of an `ETLScheduler` instance (`scheduler.py`, lines 51-52):
the job history list and `max_history_size = 100`. -/
structure ETLScheduler where
  job_history : List JobRecord
  max_history_size : ℕ
deriving DecidableEq

/-- A freshly constructed `ETLScheduler()` (`scheduler.py`, lines 29-52). -/
def ETLScheduler.init : ETLScheduler :=
  ⟨[], 100⟩

/-- `ETLScheduler._add_job_to_history` (`scheduler.py`, lines 327-334):
stamp the record, append it, and trim to the most recent
`max_history_size` entries only when the history exceeds
`max_history_size * 1.2`.  In IEEE doubles `100 * 1.2 == 120.0` exactly,
so `len > max_history_size * 1.2` is `5 * len > 6 * max_history_size`
over the integers. -/
def _add_job_to_history (s : ETLScheduler) (job_info : JobRecord) (now : ℕ) : ETLScheduler :=
  let hist := s.job_history ++ [{ job_info with timestamp := now }]
  if s.max_history_size * 6 < hist.length * 5 then
    { s with job_history := pyTakeLast s.max_history_size hist }
  else
    { s with job_history := hist }

/-- `ETLScheduler._cleanup_job_history` (`scheduler.py`, lines 317-325):
trim to the most recent `max_history_size` entries when the history
exceeds `max_history_size`. -/
def _cleanup_job_history (s : ETLScheduler) : ETLScheduler :=
  if s.max_history_size < s.job_history.length then
    { s with job_history := pyTakeLast s.max_history_size s.job_history }
  else
    s

/-- The result dictionary returned by `trigger_manual_etl`
(`scheduler.py`): either the orchestrator's result or the synthesized
`error_result`.  We keep `status` and `error`. -/
structure EtlResult where
  status : String
  error : Option String
deriving DecidableEq

/-- `ETLScheduler.trigger_manual_etl` (`scheduler.py`, lines 347-418).
`outcome` models the whole `try`-block work before the history append
(database session acquisition plus the orchestrator run, either
`run_full_etl` or `run_incremental_etl`): `.ok result` when it returns,
`.error msg` when it raises.  Both paths append exactly one Job Run
Record via `_add_job_to_history` and return a result dictionary; the
`except` path returns `status = "failed"` carrying `str(e)` instead of
re-raising.  Returns (result, new scheduler state, list of records
passed to `_add_job_to_history` during the call). -/
def trigger_manual_etl (s : ETLScheduler) (data_type : String)
    (job_name : Option String) (outcome : Except String EtlResult) (now : ℕ) :
    EtlResult × ETLScheduler × List JobRecord :=
  let job_id := "manual_etl_" ++ data_type ++ "_" ++ toString now
  match outcome with
  | .ok result =>
    let job_info : JobRecord :=
      ⟨job_id, "manual_etl_" ++ data_type,
        some (job_name.getD ("Manual ETL - " ++ data_type)),
        result.status, result.error, 0⟩
    (result, _add_job_to_history s job_info now, [job_info])
  | .error msg =>
    let error_result : EtlResult := ⟨"failed", some msg⟩
    let job_info : JobRecord :=
      ⟨job_id, "manual_etl_" ++ data_type,
        some (job_name.getD ("Manual ETL - " ++ data_type)),
        "failed", some msg, 0⟩
    (error_result, _add_job_to_history s job_info now, [job_info])

/-- The conjunction of the optional `get_error_history` predicates, used to
state that the three sequential filters act as one filter. -/
def historyMatches (error_type : Option ETLErrorType) (severity : Option ETLErrorSeverity)
    (since : Option ℕ) (e : ErrorRecord) : Bool :=
  (match error_type with | none => true | some t => e.error_type == t) &&
  (match severity with | none => true | some s => e.severity == s) &&
  (match since with | none => true | some s => decide (s ≤ e.timestamp))

/-- A sample outcome record used in concrete instantiations. -/
def sampleRecord : ErrorRecord :=
  ⟨"e", .unknown, .medium, 1, 0⟩

/-- A sample Job Run Record used in concrete instantiations. -/
def sampleJob : JobRecord :=
  ⟨"j", "manual_etl_appointments", none, "completed", none, 0⟩

/-- The scheduler state reached from a fresh `ETLScheduler()` by `n`
consecutive `_add_job_to_history` appends. -/
def schedAfter : ℕ → ETLScheduler
  | 0 => ETLScheduler.init
  | n + 1 => _add_job_to_history (schedAfter n) sampleJob 0

/-- A scheduler state holding 120 Job Run Records, as reached right at the
trim threshold. -/
def sched120 : ETLScheduler :=
  ⟨List.replicate 120 sampleJob, 100⟩

/-- A retry policy whose backoff factor is below 1, exercising
`calculate_delay` outside the stored defaults. -/
def decayConfig : RetryConfig :=
  ⟨3, 1, 60, 1/2, false⟩

/-- A caller-supplied override policy allowing 5 attempts. -/
def customFive : RetryConfig :=
  ⟨5, 1, 60, 2, false⟩

/-- A work function that fails on every invocation with a message that
classifies as UNKNOWN. -/
def boomF : ℕ → Except String Unit :=
  fun _ => Except.error "boom"

/-- A work function that fails on its first two invocations with
DATABASE_CONNECTION-classified messages and returns 42 on the third. -/
def twoFailF : ℕ → Except String ℕ :=
  fun n =>
    if n = 1 then Except.error "connection lost"
    else if n = 2 then Except.error "connection reset"
    else Except.ok 42

/-! ## Helper lemmas -/

theorem log_error_retry_configs (h : ETLErrorHandler) (e : ErrorRecord) :
    (log_error h e).retry_configs = h.retry_configs := by
  unfold log_error
  dsimp only
  split <;> rfl

theorem log_error_max_history_size (h : ETLErrorHandler) (e : ErrorRecord) :
    (log_error h e).max_history_size = h.max_history_size := by
  unfold log_error
  dsimp only
  split <;> rfl

theorem log_error_history_eq (h : ETLErrorHandler) (e : ErrorRecord)
    (hN : 0 < h.max_history_size) :
    (log_error h e).error_history =
      (h.error_history ++ [e]).drop
        ((h.error_history ++ [e]).length - h.max_history_size) := by
  unfold log_error pyTakeLast
  dsimp only
  split
  · rw [if_neg (by omega)]
  · have h0 : (h.error_history ++ [e]).length - h.max_history_size = 0 := by omega
    rw [h0, List.drop_zero]

theorem handleLoop_step_ok {α : Type} (cfg : Option RetryConfig) (f : ℕ → Except String α)
    (fuel : ℕ) (h : ETLErrorHandler) (attempt : ℕ) (v : α) (hf : f attempt = .ok v) :
    handleLoop cfg f (fuel + 1) h attempt = (some (.ok v), h, 1) := by
  simp [handleLoop, hf]

theorem handleLoop_step_retry {α : Type} (cfg : Option RetryConfig) (f : ℕ → Except String α)
    (fuel : ℕ) (h : ETLErrorHandler) (attempt : ℕ) (msg : String)
    (hf : f attempt = .error msg)
    (hr : attempt < (h.retry_configs (classify_error msg)).max_attempts) :
    handleLoop cfg f (fuel + 1) h attempt =
      ((handleLoop cfg f fuel
          (log_error h ⟨msg, classify_error msg,
            determine_severity (classify_error msg), attempt, attempt⟩) (attempt + 1)).1,
       (handleLoop cfg f fuel
          (log_error h ⟨msg, classify_error msg,
            determine_severity (classify_error msg), attempt, attempt⟩) (attempt + 1)).2.1,
       (handleLoop cfg f fuel
          (log_error h ⟨msg, classify_error msg,
            determine_severity (classify_error msg), attempt, attempt⟩) (attempt + 1)).2.2 + 1) := by
  have hs : should_retry
      (log_error h ⟨msg, classify_error msg,
        determine_severity (classify_error msg), attempt, attempt⟩)
      (classify_error msg) attempt = true := by
    simp [should_retry, log_error_retry_configs, hr]
  simp [handleLoop, hf, hs]

theorem handleLoop_step_raise {α : Type} (cfg : Option RetryConfig) (f : ℕ → Except String α)
    (fuel : ℕ) (h : ETLErrorHandler) (attempt : ℕ) (msg : String)
    (hf : f attempt = .error msg)
    (hr : ¬ attempt < (h.retry_configs (classify_error msg)).max_attempts) :
    handleLoop cfg f (fuel + 1) h attempt =
      (some (.error ⟨msg, classify_error msg,
          determine_severity (classify_error msg), attempt, attempt⟩),
       log_error h ⟨msg, classify_error msg,
          determine_severity (classify_error msg), attempt, attempt⟩, 1) := by
  have hs : should_retry
      (log_error h ⟨msg, classify_error msg,
        determine_severity (classify_error msg), attempt, attempt⟩)
      (classify_error msg) attempt = false := by
    simp [should_retry, log_error_retry_configs, hr]
  simp [handleLoop, hf, hs]

theorem drop_last_append {α : Type} (l : List α) (r : α) (n : ℕ) (hn : 0 < n) :
    (l.drop (l.length - n) ++ [r]).drop ((l.drop (l.length - n) ++ [r]).length - n)
      = (l ++ [r]).drop ((l ++ [r]).length - n) := by
  rcases le_or_lt l.length n with hk | hk
  · rw [Nat.sub_eq_zero_of_le hk, List.drop_zero]
  · have hlen : (l.drop (l.length - n)).length = n := by
      rw [List.length_drop]; omega
    have e1 : (l.drop (l.length - n) ++ [r]).length - n = 1 := by
      rw [List.length_append, hlen]; simp
    have e2 : (l ++ [r]).length - n = l.length - n + 1 := by
      rw [List.length_append]; simp; omega
    rw [e1, e2, List.drop_append_eq_append_drop, List.drop_append_eq_append_drop,
      List.drop_drop, hlen]
    have e3 : 1 - n = 0 := by omega
    have e4 : l.length - n + 1 - l.length = 0 := by omega
    rw [e3, e4]

theorem foldl_log_error_spec (recs : List ErrorRecord) :
    (recs.foldl log_error ETLErrorHandler.init).max_history_size = 1000 ∧
    (recs.foldl log_error ETLErrorHandler.init).error_history
      = recs.drop (recs.length - 1000) := by
  induction recs using List.reverseRecOn with
  | nil => exact ⟨rfl, rfl⟩
  | append_singleton l r ih =>
    obtain ⟨hsize, hhist⟩ := ih
    have hfold : (l ++ [r]).foldl log_error ETLErrorHandler.init
        = log_error (l.foldl log_error ETLErrorHandler.init) r := by
      rw [List.foldl_append]; rfl
    rw [hfold]
    refine ⟨by rw [log_error_max_history_size, hsize], ?_⟩
    rw [log_error_history_eq _ _ (by rw [hsize]; norm_num), hsize, hhist]
    exact drop_last_append l r 1000 (by norm_num)

/-- C8: starting from a fresh handler, after any sequence of `log_error`
appends the error-history ledger holds exactly the most recent 1000 of the
appended records, in their original order (and hence never more than 1000
entries). -/
theorem C8_ledger_capacity (recs : List ErrorRecord) :
    (recs.foldl log_error ETLErrorHandler.init).error_history
      = recs.drop (recs.length - 1000) ∧
    (recs.foldl log_error ETLErrorHandler.init).error_history.length ≤ 1000 := by
  obtain ⟨-, hh⟩ := foldl_log_error_spec recs
  refine ⟨hh, ?_⟩
  rw [hh, List.length_drop]
  omega

/-- C6: with the default policy table, `should_retry` answers exactly
`attempt < max_attempts` of the category's policy, and DATA_VALIDATION
failures are never retried for any attempt ≥ 1. -/
theorem C6_should_retry_spec (t : ETLErrorType) (a : ℕ) :
    (should_retry ETLErrorHandler.init t a = true ↔
      a < (ETLErrorHandler.init.retry_configs t).max_attempts) ∧
    (1 ≤ a → should_retry ETLErrorHandler.init ETLErrorType.data_validation a = false) := by
  constructor
  · simp [should_retry]
  · intro ha
    simp only [should_retry, ETLErrorHandler.init, defaultRetryConfigs, decide_eq_false_iff_not]
    omega

/-- Witness for C6 at the DATA_VALIDATION category and attempt 1. -/
theorem C6_should_retry_spec_witness :
    (should_retry ETLErrorHandler.init ETLErrorType.data_validation 1 = true ↔
      1 < (ETLErrorHandler.init.retry_configs ETLErrorType.data_validation).max_attempts) ∧
    should_retry ETLErrorHandler.init ETLErrorType.data_validation 1 = false :=
  ⟨(C6_should_retry_spec ETLErrorType.data_validation 1).1,
   (C6_should_retry_spec ETLErrorType.data_validation 1).2 (by decide)⟩

/-- C7: any message containing "timeout" (case-insensitively) and none of
the earlier-priority keywords (connection, database, azure, blob, synapse)
is classified as NETWORK_TIMEOUT. -/
theorem C7_timeout_classification (msg : String)
    (ht : containsKw msg "timeout" = true)
    (h1 : containsKw msg "connection" = false)
    (h2 : containsKw msg "database" = false)
    (h3 : containsKw msg "azure" = false)
    (h4 : containsKw msg "blob" = false)
    (h5 : containsKw msg "synapse" = false) :
    classify_error msg = ETLErrorType.network_timeout := by
  unfold classify_error
  rw [ht, h1, h2, h3, h4, h5]
  rfl

/-- Witness for C7 on the concrete message "Request TIMEOUT after 30s". -/
theorem C7_timeout_classification_witness :
    containsKw "Request TIMEOUT after 30s" "timeout" = true ∧
    classify_error "Request TIMEOUT after 30s" = ETLErrorType.network_timeout :=
  ⟨by decide,
   C7_timeout_classification "Request TIMEOUT after 30s"
    (by decide) (by decide) (by decide) (by decide) (by decide) (by decide)⟩

/-- C9: `trigger_manual_etl` passes exactly one Job Run Record to
`_add_job_to_history` regardless of outcome, and when the underlying ETL
raises it returns (rather than raises) a result with `status = "failed"`
carrying the error's string form. -/
theorem C9_trigger_manual (s : ETLScheduler) (dt : String) (jn : Option String)
    (outcome : Except String EtlResult) (now : ℕ) :
    (∃ r, (trigger_manual_etl s dt jn outcome now).2.2 = [r] ∧
      (trigger_manual_etl s dt jn outcome now).2.1 = _add_job_to_history s r now) ∧
    (∀ msg, outcome = .error msg →
      (trigger_manual_etl s dt jn outcome now).1.status = "failed" ∧
      (trigger_manual_etl s dt jn outcome now).1.error = some msg) := by
  cases outcome with
  | ok r =>
    refine ⟨⟨_, rfl, rfl⟩, ?_⟩
    intro msg hmsg
    exact absurd hmsg (by simp)
  | error msg0 =>
    refine ⟨⟨_, rfl, rfl⟩, ?_⟩
    intro msg hmsg
    injection hmsg with h
    subst h
    exact ⟨rfl, rfl⟩

/-- Witness for C9 on a failing manual trigger. -/
theorem C9_trigger_manual_witness :
    (∃ r, (trigger_manual_etl ETLScheduler.init "appointments" none
        (Except.error "db boom") 5).2.2 = [r] ∧
      (trigger_manual_etl ETLScheduler.init "appointments" none
        (Except.error "db boom") 5).2.1 = _add_job_to_history ETLScheduler.init r 5) ∧
    ((trigger_manual_etl ETLScheduler.init "appointments" none
        (Except.error "db boom") 5).1.status = "failed" ∧
      (trigger_manual_etl ETLScheduler.init "appointments" none
        (Except.error "db boom") 5).1.error = some "db boom") :=
  ⟨(C9_trigger_manual ETLScheduler.init "appointments" none (Except.error "db boom") 5).1,
   (C9_trigger_manual ETLScheduler.init "appointments" none
      (Except.error "db boom") 5).2 "db boom" rfl⟩

/-- C10: a call through the `with_etl_error_handling` decorator runs on a
fresh handler; the module-level handler is returned unchanged, so its
`get_error_history` and `get_error_statistics` results are unaffected,
while the call's outcome is that of `handle_error_with_retry` started from
a fresh `ETLErrorHandler()`. -/
theorem C10_decorator_frame {α : Type} (g : ETLErrorHandler) (cfg : Option RetryConfig)
    (f : ℕ → Except String α) (fuel : ℕ) (limit : Option ℕ) (et : Option ETLErrorType)
    (sv : Option ETLErrorSeverity) (since : Option ℕ) :
    (with_etl_error_handling_call g cfg f fuel).2 = g ∧
    (with_etl_error_handling_call g cfg f fuel).1
      = handle_error_with_retry ETLErrorHandler.init cfg f fuel ∧
    get_error_history (with_etl_error_handling_call g cfg f fuel).2 limit et sv since
      = get_error_history g limit et sv since ∧
    get_error_statistics (with_etl_error_handling_call g cfg f fuel).2 since
      = get_error_statistics g since :=
  ⟨rfl, rfl, rfl, rfl⟩

theorem get_error_history_filter (h : ETLErrorHandler) (et : Option ETLErrorType)
    (sv : Option ETLErrorSeverity) (since : Option ℕ) :
    get_error_history h none et sv since
      = h.error_history.filter (historyMatches et sv since) := by
  unfold get_error_history historyMatches
  cases et <;> cases sv <;> cases since <;>
    simp [List.filter_filter, Bool.and_comm, Bool.and_assoc, Bool.and_left_comm]

theorem get_error_history_limit (h : ETLErrorHandler) (et : Option ETLErrorType)
    (sv : Option ETLErrorSeverity) (since : Option ℕ) (n : ℕ) (hn : n ≠ 0) :
    get_error_history h (some n) et sv since
      = (get_error_history h none et sv since).drop
          ((get_error_history h none et sv since).length - n) := by
  unfold get_error_history pyTakeLast
  dsimp only
  rw [if_neg hn, if_neg hn]

/-- C2 fails as stated at limit 0: on a ledger holding one record, a
provided limit of 0 is falsy in Python, so `get_error_history` returns the
whole filtered list rather than the empty list the claim demands. -/
theorem C2_counterexample :
    get_error_history (log_error ETLErrorHandler.init sampleRecord) (some 0) none none none
      = [sampleRecord] ∧ [sampleRecord] ≠ ([] : List ErrorRecord) := by
  constructor
  · rfl
  · simp

/-- C2 (amended): for every ledger state, every filter combination and
every provided limit N ≥ 1, `get_error_history` returns exactly the most
recent N records of the filtered sequence in original order; a provided
limit of 0 instead behaves like no limit. -/
theorem C2_history_query (h : ETLErrorHandler) (et : Option ETLErrorType)
    (sv : Option ETLErrorSeverity) (since : Option ℕ) (n : ℕ) (hn : 1 ≤ n) :
    get_error_history h (some n) et sv since
      = (h.error_history.filter (historyMatches et sv since)).drop
          ((h.error_history.filter (historyMatches et sv since)).length - n) ∧
    get_error_history h (some n) et sv since
      <:+ h.error_history.filter (historyMatches et sv since) ∧
    (get_error_history h (some n) et sv since).length
      = min n (h.error_history.filter (historyMatches et sv since)).length := by
  have hfl := get_error_history_filter h et sv since
  have hl := get_error_history_limit h et sv since n (by omega)
  rw [hfl] at hl
  refine ⟨hl, ?_, ?_⟩
  · rw [hl]
    exact List.drop_suffix _ _
  · rw [hl, List.length_drop]
    omega

/-- Witness for C2 (amended) on a one-record ledger with limit 1. -/
theorem C2_history_query_witness :
    (get_error_history (log_error ETLErrorHandler.init sampleRecord) (some 1) none none none
      = ((log_error ETLErrorHandler.init sampleRecord).error_history.filter
          (historyMatches none none none)).drop
          (((log_error ETLErrorHandler.init sampleRecord).error_history.filter
            (historyMatches none none none)).length - 1)) ∧
    get_error_history (log_error ETLErrorHandler.init sampleRecord) (some 1) none none none
      <:+ (log_error ETLErrorHandler.init sampleRecord).error_history.filter
          (historyMatches none none none) ∧
    (get_error_history (log_error ETLErrorHandler.init sampleRecord)
        (some 1) none none none).length
      = min 1 ((log_error ETLErrorHandler.init sampleRecord).error_history.filter
          (historyMatches none none none)).length :=
  C2_history_query (log_error ETLErrorHandler.init sampleRecord) none none none 1 (le_refl 1)

set_option maxRecDepth 8000 in
/-- C3 fails as stated: the state reached by 100 appends from a fresh
scheduler is reachable, and the 101st append pushes the history past 100
entries without any trim (the source trims only beyond 100 × 1.2 = 120). -/
theorem C3_counterexample :
    (schedAfter 101).job_history.length = 101 ∧
    100 < (schedAfter 101).job_history.length := by
  constructor <;> decide

/-- C3 (amended): with the scheduler's capacity of 100, an append trims
oldest-first to the most recent 100 entries only once the history exceeds
120 entries (100 × 1.2 slack); consequently the history immediately after
any append holds at most 120 entries, and an append onto a history of at
least 120 entries trims it to the most recent 100. -/
theorem C3_trim_slack (s : ETLScheduler) (j : JobRecord) (now : ℕ)
    (hs : s.max_history_size = 100) :
    (_add_job_to_history s j now).job_history.length ≤ 120 ∧
    (120 ≤ s.job_history.length →
      (_add_job_to_history s j now).job_history
        = (s.job_history ++ [{ j with timestamp := now }]).drop
            (s.job_history.length + 1 - 100)) := by
  unfold _add_job_to_history pyTakeLast
  dsimp only
  rw [hs]
  by_cases hcond : 100 * 6 < (s.job_history ++ [{ j with timestamp := now }]).length * 5
  · rw [if_pos hcond]
    have h100 : (100 : ℕ) ≠ 0 := by norm_num
    rw [if_neg h100]
    have hc := hcond
    simp only [List.length_append, List.length_singleton] at hc
    constructor
    · simp only [List.length_drop, List.length_append, List.length_singleton]
      omega
    · intro _
      rw [List.length_append, List.length_singleton]
  · rw [if_neg hcond]
    simp only [List.length_append, List.length_singleton] at hcond
    constructor
    · simp only [List.length_append, List.length_singleton]
      omega
    · intro h120
      exfalso
      omega

/-- Witness for C3 (amended) at the 120-entry threshold state. -/
theorem C3_trim_slack_witness :
    (_add_job_to_history sched120 sampleJob 0).job_history.length ≤ 120 ∧
    (_add_job_to_history sched120 sampleJob 0).job_history
      = (sched120.job_history ++ [{ sampleJob with timestamp := 0 }]).drop
          (sched120.job_history.length + 1 - 100) :=
  ⟨(C3_trim_slack sched120 sampleJob 0 rfl).1,
   (C3_trim_slack sched120 sampleJob 0 rfl).2 (by decide)⟩

/-- C5 fails as stated: for the policy with `exponential_base = 1/2` the
pre-jitter delay strictly decreases from attempt 1 to attempt 2, refuting
monotonicity over every retry policy. -/
theorem C5_counterexample :
    pre_jitter_delay 2 decayConfig < pre_jitter_delay 1 decayConfig := by
  norm_num [pre_jitter_delay, decayConfig]

/-- C5 (amended): for every retry policy with nonnegative base delay,
nonnegative delay cap and backoff factor ≥ 1 (all stored defaults
qualify), the pre-jitter delay equals `min(base_delay *
exponential_base^(attempt-1), max_delay)`, is monotone non-decreasing in
the attempt, and the post-jitter delay (the pre-jitter delay times a
factor in [1/2, 1)) never exceeds `max_delay`. -/
theorem C5_delay_properties (config : RetryConfig) (a b : ℕ) (j : ℚ)
    (hbase : 0 ≤ config.base_delay) (hexp : 1 ≤ config.exponential_base)
    (hmax : 0 ≤ config.max_delay) (ha : 1 ≤ a) (hab : a ≤ b)
    (hj1 : 1/2 ≤ j) (hj2 : j < 1) :
    pre_jitter_delay a config
      = min (config.base_delay * config.exponential_base ^ (a - 1)) config.max_delay ∧
    pre_jitter_delay a config ≤ pre_jitter_delay b config ∧
    calculate_delay a config j ≤ config.max_delay := by
  have hpow : ∀ m : ℕ, (0:ℚ) ≤ config.exponential_base ^ m :=
    fun m => pow_nonneg (le_trans zero_le_one hexp) m
  have hpre0 : 0 ≤ pre_jitter_delay a config := by
    unfold pre_jitter_delay
    exact le_min (mul_nonneg hbase (hpow _)) hmax
  have hprem : pre_jitter_delay a config ≤ config.max_delay := min_le_right _ _
  refine ⟨rfl, ?_, ?_⟩
  · unfold pre_jitter_delay
    refine min_le_min ?_ le_rfl
    exact mul_le_mul_of_nonneg_left (pow_le_pow_right₀ hexp (by omega)) hbase
  · cases hcj : config.jitter with
    | false => simpa [calculate_delay, hcj] using hprem
    | true =>
      have hcd : calculate_delay a config j = pre_jitter_delay a config * j := by
        simp [calculate_delay, hcj]
      rw [hcd]
      exact le_trans (mul_le_of_le_one_right hpre0 (le_of_lt hj2)) hprem

/-- Witness for C5 (amended) on the stored DATABASE_CONNECTION policy at
attempts 1 ≤ 2 with jitter factor 3/4. -/
theorem C5_delay_properties_witness :
    pre_jitter_delay 1 (defaultRetryConfigs ETLErrorType.database_connection)
      = min ((defaultRetryConfigs ETLErrorType.database_connection).base_delay
          * (defaultRetryConfigs ETLErrorType.database_connection).exponential_base ^ (1 - 1))
          (defaultRetryConfigs ETLErrorType.database_connection).max_delay ∧
    pre_jitter_delay 1 (defaultRetryConfigs ETLErrorType.database_connection)
      ≤ pre_jitter_delay 2 (defaultRetryConfigs ETLErrorType.database_connection) ∧
    calculate_delay 1 (defaultRetryConfigs ETLErrorType.database_connection) (3/4)
      ≤ (defaultRetryConfigs ETLErrorType.database_connection).max_delay :=
  C5_delay_properties (defaultRetryConfigs ETLErrorType.database_connection) 1 2 (3/4)
    (by norm_num [defaultRetryConfigs]) (by norm_num [defaultRetryConfigs])
    (by norm_num [defaultRetryConfigs]) (by norm_num) (by norm_num)
    (by norm_num) (by norm_num)

/-- C4: a work function failing on its first two invocations and
succeeding on the third, run under policies permitting at least 3
attempts for the categories of the two failures, makes
`handle_error_with_retry` return the success value, invoke the work
function exactly 3 times, and append exactly the 2 failure outcome
records — none for the successful attempt. -/
theorem C4_retry_twice_then_succeed {α : Type} (h : ETLErrorHandler)
    (cfg : Option RetryConfig) (f : ℕ → Except String α) (v : α)
    (m1 m2 : String) (fuel : ℕ)
    (hf1 : f 1 = .error m1) (hf2 : f 2 = .error m2) (hf3 : f 3 = .ok v)
    (hc1 : 3 ≤ (h.retry_configs (classify_error m1)).max_attempts)
    (hc2 : 3 ≤ (h.retry_configs (classify_error m2)).max_attempts)
    (hfuel : 3 ≤ fuel) :
    handle_error_with_retry h cfg f fuel =
      (some (.ok v),
        log_error (log_error h
          ⟨m1, classify_error m1, determine_severity (classify_error m1), 1, 1⟩)
          ⟨m2, classify_error m2, determine_severity (classify_error m2), 2, 2⟩,
        3) := by
  obtain ⟨k, rfl⟩ : ∃ k, fuel = k + 2 + 1 := ⟨fuel - 3, by omega⟩
  unfold handle_error_with_retry
  rw [handleLoop_step_retry cfg f (k + 2) h 1 m1 hf1 (by omega)]
  rw [show (1 : ℕ) + 1 = 2 from rfl]
  rw [show k + 2 = k + 1 + 1 from rfl]
  rw [handleLoop_step_retry cfg f (k + 1) _ 2 m2 hf2
    (by rw [log_error_retry_configs]; omega)]
  rw [show (2 : ℕ) + 1 = 3 from rfl]
  rw [handleLoop_step_ok cfg f k _ 3 v hf3]

/-- Witness for C4 on a work function failing twice with
DATABASE_CONNECTION-classified messages and then returning 42. -/
theorem C4_retry_twice_then_succeed_witness :
    handle_error_with_retry ETLErrorHandler.init none twoFailF 10 =
      (some (.ok 42),
        log_error (log_error ETLErrorHandler.init
          ⟨"connection lost", classify_error "connection lost",
            determine_severity (classify_error "connection lost"), 1, 1⟩)
          ⟨"connection reset", classify_error "connection reset",
            determine_severity (classify_error "connection reset"), 2, 2⟩,
        3) :=
  C4_retry_twice_then_succeed ETLErrorHandler.init none twoFailF 42
    "connection lost" "connection reset" 10 rfl rfl rfl
    (by decide) (by decide) (by decide)

/-- C1: contrary to the claim, retry eligibility ignores the
caller-supplied `custom_retry_config`: with the default handler, an
override policy allowing 5 attempts, and a work function always failing
with an UNKNOWN-classified message, the loop raises exhaustion after only
2 invocations — the UNKNOWN category's stored `max_attempts` — although
2 < 5 would make the override retry. -/
theorem C1_override_ignored :
    (handle_error_with_retry ETLErrorHandler.init (some customFive) boomF 10).2.2 = 2 ∧
    (handle_error_with_retry ETLErrorHandler.init (some customFive) boomF 10).1
      = some (.error ⟨"boom", .unknown, .medium, 2, 2⟩) ∧
    2 < customFive.max_attempts := by
  refine ⟨?_, ?_, by norm_num [customFive]⟩ <;> rfl
